import Mathlib

/-!
# Verification of the `eventor-api` client

A shallow embedding of the repository's two core source files
(`src/eventor/schemas.py` — pydantic-xml entity models — and
`src/eventor/api.py` — the Eventor API client, the distance text parser
and the result-page scraper), together with theorems settling the
specification's claims about them.

Modelling conventions:
* XML documents are finite trees (`Xml`); the byte-level parse step of
  `pydantic_xml.BaseXmlModel.from_xml` is abstracted as `Option Xml`
  (`none` = bytes that are not well-formed XML).
* pydantic-xml element search modes are embedded functionally: the
  per-model decode threads the list of not-yet-consumed children.
  `strict` (the library default) matches only the child at the cursor;
  `ordered` (`search_mode="ordered"` in the source) scans forward from
  the cursor, skipping non-matching children.  A failed search leaves
  the cursor unchanged.
* A homogeneous collection field (`list[...] = element(...)`) that finds
  zero matching children deserializes as a missing value, so the field's
  default applies when one is declared (`default_factory=list`) and
  decoding fails otherwise.  This mirrors pydantic-xml, whose collection
  deserializer returns `None` for an empty collection — which is why the
  source declares `default_factory=list` on exactly the collection
  fields that may legitimately be empty.
* Wrapped fields (`wrapped("A/B")`) navigate intermediate elements;
  consecutive wrapped fields sharing a wrapper element (e.g. Person's
  `PersonName/Family` and `PersonName/Given`) read from the same located
  wrapper, as documented for pydantic-xml.
* Python `int(...)` conversion is `String.toInt?`; float attribute
  values are kept as their source strings after a shape check (no claim
  depends on float arithmetic).
* The HTTP transport (`requests.get`) is an oracle
  `Net : Request → NetResult`; an exception raised by the transport
  (connection failure / timeout) is a `NetResult` constructor of its
  own, while any completed HTTP exchange — whatever its status code —
  is `NetResult.resp`.  `EventorAPI._make_call` never inspects
  `status_code` and never calls `raise_for_status`, which the embedding
  reproduces.
-/

namespace Eventor

/-! ## XML documents -/

/-- An XML element: tag, attributes, text content (text before the first
child, as in lxml; `none` when empty) and child elements. -/
inductive Xml where
  | elem (tag : String) (attrs : List (String × String))
         (text : Option String) (children : List Xml)

def Xml.tag : Xml → String
  | .elem t _ _ _ => t

def Xml.attrs : Xml → List (String × String)
  | .elem _ a _ _ => a

def Xml.text : Xml → Option String
  | .elem _ _ t _ => t

def Xml.children : Xml → List Xml
  | .elem _ _ _ c => c

/-- Look up an attribute by name. -/
def Xml.attr? (x : Xml) (name : String) : Option String :=
  (x.attrs.find? (fun p => p.1 == name)).map Prod.snd

/-! ## Element search (pydantic-xml search modes)

The state of a model decode is the list of children not yet consumed.
-/

/-- pydantic-xml element search modes used by the source: `strict` is
the library default, `ordered` is `search_mode="ordered"`. -/
inductive SearchMode where
  | strict
  | ordered
deriving DecidableEq

/-- The `ordered` search: scan forward for the first child with the tag,
consuming it and everything before it.  `none` = not found (the caller
keeps its old state, as a failed search does not move the cursor). -/
def findOrdered (tag : String) : List Xml → Option (Xml × List Xml)
  | [] => none
  | c :: cs => if c.tag == tag then some (c, cs) else findOrdered tag cs

/-- The `strict` search: the child at the cursor must carry the tag. -/
def findStrict (tag : String) : List Xml → Option (Xml × List Xml)
  | [] => none
  | c :: cs => if c.tag == tag then some (c, cs) else none

def findChild : SearchMode → String → List Xml → Option (Xml × List Xml)
  | .strict => findStrict
  | .ordered => findOrdered

/-- The `ordered` homogeneous collection: repeatedly searching forward for
the tag collects every remaining child with that tag, in document
order. -/
def collectOrdered (tag : String) (cs : List Xml) : List Xml :=
  cs.filter (fun c => c.tag == tag)

/-- The `strict` homogeneous collection: pop children while the child at the
cursor carries the tag. -/
def collectStrict (tag : String) (cs : List Xml) : List Xml :=
  cs.takeWhile (fun c => c.tag == tag)

def collectChildren : SearchMode → String → List Xml → List Xml
  | .strict => collectStrict
  | .ordered => collectOrdered

/-! ## Decoding errors and scalar conversions -/

/-- A structural decoding failure (pydantic validation error), or
`malformed` for bytes that do not parse as XML at all. -/
inductive DecodeError where
  | missing (loc : String)
  | conversion (loc : String)
  | malformed
deriving DecidableEq, Repr

/-- Value of `int("".join(digit_chars))` over decimal digit characters. -/
def digitsVal (ds : List Char) : Nat :=
  ds.foldl (fun n c => n * 10 + (c.toNat - '0'.toNat)) 0

/-- Python `int(text)` applied to element text / attribute values: an
optional minus sign followed by one or more decimal digits; any other
shape raises `ValueError` (modelled as `none`). -/
def strToInt? (s : String) : Option Int :=
  match s.data with
  | [] => none
  | '-' :: ds =>
    if ds.isEmpty || !ds.all Char.isDigit then none
    else some (-(digitsVal ds : Int))
  | ds =>
    if !ds.all Char.isDigit then none
    else some ((digitsVal ds : Int))

/-- Shape check standing in for Python `float(text)`; float values are
kept as their source strings (no claim depends on float arithmetic). -/
def isFloatStr (s : String) : Bool :=
  let core := if s.startsWith "-" then s.drop 1 else s
  let parts := core.splitOn "."
  match parts with
  | [a] => !a.isEmpty && a.all Char.isDigit
  | [a, b] => !a.isEmpty && !b.isEmpty && a.all Char.isDigit && b.all Char.isDigit
  | _ => false

/-! ### Field readers

Each reader takes the search mode of the enclosing model and the decode
state (remaining children), and returns the field value together with
the new state.
-/

/-- Required element whose text converts to `int`. -/
def reqIntElem (m : SearchMode) (tag : String) (st : List Xml) :
    Except DecodeError (Int × List Xml) :=
  match findChild m tag st with
  | none => .error (.missing tag)
  | some (c, st') =>
    match c.text.bind strToInt? with
    | none => .error (.conversion tag)
    | some n => .ok (n, st')

/-- Required element with text content (a `str` field). -/
def reqStrElem (m : SearchMode) (tag : String) (st : List Xml) :
    Except DecodeError (String × List Xml) :=
  match findChild m tag st with
  | none => .error (.missing tag)
  | some (c, st') =>
    match c.text with
    | none => .error (.missing tag)
    | some t => .ok (t, st')

/-- Optional `str` element (`default=None`): a missing element — or a
present element with no text — deserializes as the default. -/
def optStrElem (m : SearchMode) (tag : String) (st : List Xml) :
    Option String × List Xml :=
  match findChild m tag st with
  | none => (none, st)
  | some (c, st') => (c.text, st')

/-- Optional `int` element (`default=None`): a missing element (or one
with no text) yields the default, but text that fails `int` conversion
is a validation error. -/
def optIntElem (m : SearchMode) (tag : String) (st : List Xml) :
    Except DecodeError (Option Int × List Xml) :=
  match findChild m tag st with
  | none => .ok (none, st)
  | some (c, st') =>
    match c.text with
    | none => .ok (none, st')
    | some t =>
      match strToInt? t with
      | none => .error (.conversion tag)
      | some n => .ok (some n, st')

/-- Required attribute on the current element. -/
def reqStrAttr (x : Xml) (name : String) : Except DecodeError String :=
  match x.attr? name with
  | none => .error (.missing name)
  | some v => .ok v

/-- Required attribute converted to `int`. -/
def reqIntAttr (x : Xml) (name : String) : Except DecodeError Int :=
  match x.attr? name with
  | none => .error (.missing name)
  | some v =>
    match strToInt? v with
    | none => .error (.conversion name)
    | some n => .ok n

/-- Optional attribute converted to `int`. -/
def optIntAttr (x : Xml) (name : String) : Except DecodeError (Option Int) :=
  match x.attr? name with
  | none => .ok none
  | some v =>
    match strToInt? v with
    | none => .error (.conversion name)
    | some n => .ok (some n)

/-! ## Entity model (`src/eventor/schemas.py`)

Each structure mirrors one pydantic-xml model; each `_decode` function
is the model's deserializer, with the field reads in declared order and
the model's declared search mode.
-/

/-- The `ClassificationID(IntEnum)`: members numbered 1..5 by `auto()`. -/
inductive ClassificationID where
  | CHAMPIONSHIP_EVENT
  | NATIONAL_EVENT
  | STATE_EVENT
  | LOCAL_EVENT
  | CLUB_EVENT
deriving DecidableEq, Repr

/-- Python `int(cl)` on the `IntEnum`. -/
def ClassificationID.toInt : ClassificationID → Int
  | .CHAMPIONSHIP_EVENT => 1
  | .NATIONAL_EVENT => 2
  | .STATE_EVENT => 3
  | .LOCAL_EVENT => 4
  | .CLUB_EVENT => 5

/-- The `Name`: a country name (default strict search mode). -/
structure Name where
  lang : String
  name : String
deriving DecidableEq, Repr

/-- The `Name` deserializer: `lang = attr("languageId")`, `name: str` is the
element's own text content. -/
def Name_decode (x : Xml) : Except DecodeError Name := do
  let lang ← reqStrAttr x "languageId"
  match x.text with
  | none => .error (.missing "Name")
  | some t => .ok { lang := lang, name := t }

/-- The `Country` (`search_mode="ordered"`). -/
structure Country where
  country_id : Int
  names : List Name
deriving DecidableEq, Repr

/-- The `Country` deserializer: `country_id = wrapped("CountryId",
attr("value"))`; `names: list[Name] = element("Name")` has no default,
so an empty collection is a missing required field. -/
def Country_decode (x : Xml) : Except DecodeError Country := do
  let st := x.children
  match findChild .ordered "CountryId" st with
  | none => .error (.missing "CountryId")
  | some (cid, st) => do
    let v ← reqIntAttr cid "value"
    let nameElems := collectChildren .ordered "Name" st
    if nameElems.isEmpty then
      .error (.missing "Name")
    else do
      let names ← nameElems.mapM Name_decode
      .ok { country_id := v, names := names }

/-- The `Date` (default strict search mode). -/
structure Date where
  date : String
  clock : Option String
deriving DecidableEq, Repr

/-- The `Date` deserializer: `date = element("Date")` required,
`clock = element("Clock", default=None)`. -/
def Date_decode (x : Xml) : Except DecodeError Date := do
  let st := x.children
  let (date, st) ← reqStrElem .strict "Date" st
  let (clock, _) := optStrElem .strict "Clock" st
  .ok { date := date, clock := clock }

/-- The `Organisation` (`search_mode="ordered"`). -/
structure Organisation where
  organisation_id : Int
  name : String
  short_name : String
  media_name : Option String
  organisation_type_id : Int
  country : Option Country
  parent_organization_id : Option Int
deriving DecidableEq, Repr

/-- The `Organisation` deserializer, fields in declared order. -/
def Organisation_decode (x : Xml) : Except DecodeError Organisation := do
  let st := x.children
  let (oid, st) ← reqIntElem .ordered "OrganisationId" st
  let (name, st) ← reqStrElem .ordered "Name" st
  let (short_name, st) ← reqStrElem .ordered "ShortName" st
  let (media_name, st) := optStrElem .ordered "MediaName" st
  let (type_id, st) ← reqIntElem .ordered "OrganisationTypeId" st
  -- country: Country | None = element("Country", default=None)
  let (country, st) ←
    match findChild .ordered "Country" st with
    | none => pure ((none : Option Country), st)
    | some (c, st') => do
      let cv ← Country_decode c
      pure (some cv, st')
  -- parent_organization_id = wrapped("ParentOrganisation/OrganisationId",
  -- default=None): the whole path is optional; text failing int
  -- conversion is a validation error.
  let (parent, _) ←
    match findChild .ordered "ParentOrganisation" st with
    | none => pure ((none : Option Int), st)
    | some (po, st') =>
      match findChild .ordered "OrganisationId" po.children with
      | none => pure ((none : Option Int), st')
      | some (pid, _) =>
        match pid.text.bind strToInt? with
        | none => .error (.conversion "ParentOrganisation/OrganisationId")
        | some n => pure (some n, st')
  .ok { organisation_id := oid, name := name, short_name := short_name,
        media_name := media_name, organisation_type_id := type_id,
        country := country, parent_organization_id := parent }

/-- The `OtherOrganisation`: the "unknown organisation" placeholder. -/
structure OtherOrganisation where
  name : String
deriving DecidableEq, Repr

/-- The `OtherOrganisation` deserializer:
`name = element("Name", default="Klubblös")`. -/
def OtherOrganisation_decode (x : Xml) : Except DecodeError OtherOrganisation :=
  match findChild .strict "Name" x.children with
  | none => .ok { name := "Klubblös" }
  | some (c, _) =>
    match c.text with
    | none => .ok { name := "Klubblös" }
    | some t => .ok { name := t }

/-- The `Position`: three required attributes; the two floats are kept as
their (shape-checked) source strings. -/
structure Position where
  x : String
  y : String
  unit : String
deriving DecidableEq, Repr

/-- The `Position` deserializer: `x: float = attr()`, `y: float = attr()`,
`unit: str = attr()` (attribute name defaults to the field name). -/
def Position_decode (p : Xml) : Except DecodeError Position := do
  let xv ← reqStrAttr p "x"
  if isFloatStr xv then do
    let yv ← reqStrAttr p "y"
    if isFloatStr yv then do
      let u ← reqStrAttr p "unit"
      .ok { x := xv, y := yv, unit := u }
    else .error (.conversion "y")
  else .error (.conversion "x")

/-- The `EventRace` (`search_mode="ordered"`). -/
structure EventRace where
  race_distance : Option String
  race_id : Int
  event_id : Int
  name : Option String
  race_date : Date
  event_position : Option Position
deriving DecidableEq, Repr

/-- The `EventRace` deserializer. -/
def EventRace_decode (x : Xml) : Except DecodeError EventRace := do
  let race_distance := x.attr? "raceDistance"
  let st := x.children
  let (race_id, st) ← reqIntElem .ordered "EventRaceId" st
  let (event_id, st) ← reqIntElem .ordered "EventId" st
  let (name, st) := optStrElem .ordered "Name" st
  let (race_date, st) ←
    match findChild .ordered "RaceDate" st with
    | none => .error (.missing "RaceDate")
    | some (c, st') => do
      let d ← Date_decode c
      pure (d, st')
  let (event_position, _) ←
    match findChild .ordered "EventCenterPosition" st with
    | none => pure ((none : Option Position), st)
    | some (c, st') => do
      let p ← Position_decode c
      pure (some p, st')
  .ok { race_distance := race_distance, race_id := race_id,
        event_id := event_id, name := name, race_date := race_date,
        event_position := event_position }

/-- The `Event` (`tag="Event"`, `search_mode="ordered"`). -/
structure Event where
  event_id : Int
  name : String
  event_classification_id : Int
  event_status_id : Int
  event_attribute_id : Option Int
  discipline_id : Option Int
  start_date : String
  finish_date : Date
  organizer_ids : Option (List Int)
  event_races : List EventRace
deriving DecidableEq, Repr

/-- The `Event` deserializer.  `event_races: list[EventRace] =
element("EventRace")` has no default, so zero matching children is a
missing required field; `organizer_ids` is wrapped in `Organiser` with
an outer `default=None` and an inner `default_factory=list`. -/
def Event_decode (x : Xml) : Except DecodeError Event := do
  let st := x.children
  let (event_id, st) ← reqIntElem .ordered "EventId" st
  let (name, st) ← reqStrElem .ordered "Name" st
  let (classification_id, st) ← reqIntElem .ordered "EventClassificationId" st
  let (status_id, st) ← reqIntElem .ordered "EventStatusId" st
  let (attribute_id, st) ← optIntElem .ordered "EventAttributeId" st
  let (discipline_id, st) ← optIntElem .ordered "DisciplineId" st
  -- start_date = wrapped("StartDate", element("Date")): required.
  let (start_date, st) ←
    match findChild .ordered "StartDate" st with
    | none => .error (.missing "StartDate")
    | some (sd, st') => do
      let (d, _) ← reqStrElem .ordered "Date" sd.children
      pure (d, st')
  let (finish_date, st) ←
    match findChild .ordered "FinishDate" st with
    | none => .error (.missing "FinishDate")
    | some (c, st') => do
      let d ← Date_decode c
      pure (d, st')
  let (organizer_ids, st) ←
    match findChild .ordered "Organiser" st with
    | none => pure ((none : Option (List Int)), st)
    | some (org, st') => do
      let ids ← (collectChildren .ordered "OrganisationId" org.children).mapM
        (fun c =>
          match c.text.bind strToInt? with
          | none => Except.error (DecodeError.conversion "Organiser/OrganisationId")
          | some n => Except.ok n)
      pure (some ids, st')
  let raceElems := collectChildren .ordered "EventRace" st
  if raceElems.isEmpty then
    .error (.missing "EventRace")
  else do
    let event_races ← raceElems.mapM EventRace_decode
    .ok { event_id := event_id, name := name,
          event_classification_id := classification_id,
          event_status_id := status_id,
          event_attribute_id := attribute_id,
          discipline_id := discipline_id,
          start_date := start_date, finish_date := finish_date,
          organizer_ids := organizer_ids, event_races := event_races }

/-- The `OrganisationList` (default strict search mode). -/
structure OrganisationList where
  organisations : List Organisation
deriving DecidableEq, Repr

/-- The `OrganisationList` deserializer: `organisations: list[Organisation]
= element("Organisation")` has no default, so an empty collection is a
missing required field. -/
def OrganisationList_decode (x : Xml) : Except DecodeError OrganisationList := do
  let orgElems := collectChildren .strict "Organisation" x.children
  if orgElems.isEmpty then
    .error (.missing "Organisation")
  else do
    let orgs ← orgElems.mapM Organisation_decode
    .ok { organisations := orgs }

/-- The `Person` (`search_mode="ordered"`).  `id` and `birth_date` are
annotated `int` / `Date` but declared with `default=None`, so they are
effectively optional (pydantic does not validate defaults). -/
structure Person where
  sex : Option String
  family_name : String
  first_name : String
  id : Option Int
  birth_date : Option Date
  nationality : Option Country
deriving DecidableEq, Repr

/-- The `Person` deserializer.  `family_name = wrapped("PersonName/Family")`
and `first_name = wrapped("PersonName/Given")` share the `PersonName`
wrapper element (pydantic-xml reads consecutive wrapped fields with a
common path from the same located wrapper); `nationality =
wrapped("Nationality", element("Country", default=None))`. -/
def Person_decode (x : Xml) : Except DecodeError Person := do
  let sex := x.attr? "sex"
  let st := x.children
  let (family_name, first_name, st) ←
    match findChild .ordered "PersonName" st with
    | none => .error (.missing "PersonName")
    | some (pn, st') => do
      let pst := pn.children
      let (fam, pst) ← reqStrElem .ordered "Family" pst
      let (giv, _) ← reqStrElem .ordered "Given" pst
      pure (fam, giv, st')
  let (id, st) ← optIntElem .ordered "PersonId" st
  let (birth_date, st) ←
    match findChild .ordered "BirthDate" st with
    | none => pure ((none : Option Date), st)
    | some (c, st') => do
      let d ← Date_decode c
      pure (some d, st')
  let (nationality, _) ←
    match findChild .ordered "Nationality" st with
    | none => pure ((none : Option Country), st)
    | some (nat, st') =>
      match findChild .ordered "Country" nat.children with
      | none => pure ((none : Option Country), st')
      | some (c, _) => do
        let cv ← Country_decode c
        pure (some cv, st')
  .ok { sex := sex, family_name := family_name, first_name := first_name,
        id := id, birth_date := birth_date, nationality := nationality }

/-- The `Person.name` property: `f"{self.first_name} {self.family_name}"`. -/
def Person.name (p : Person) : String :=
  p.first_name ++ " " ++ p.family_name

/-- The `PersonList` (default strict search mode). -/
structure PersonList where
  persons : List Person
deriving DecidableEq, Repr

/-- The `PersonList` deserializer: `persons: list[Person] =
element("Person")` has no default, so an empty collection is a missing
required field. -/
def PersonList_decode (x : Xml) : Except DecodeError PersonList := do
  let elems := collectChildren .strict "Person" x.children
  if elems.isEmpty then
    .error (.missing "Person")
  else do
    let ps ← elems.mapM Person_decode
    .ok { persons := ps }

/-- The `Split` (default strict search mode). -/
structure Split where
  sequence : Int
  control_code : Int
  time : Option String
deriving DecidableEq, Repr

/-- The `Split` deserializer: `sequence = attr("sequence")`,
`control_code = element("ControlCode")`,
`time = element("Time", default=None)`. -/
def Split_decode (x : Xml) : Except DecodeError Split := do
  let sequence ← reqIntAttr x "sequence"
  let st := x.children
  let (control_code, st) ← reqIntElem .strict "ControlCode" st
  let (time, _) := optStrElem .strict "Time" st
  .ok { sequence := sequence, control_code := control_code, time := time }

/-- The `Result` (`search_mode="ordered"`). -/
structure Result where
  result_id : Int
  start_time : Option Date
  finish_time : Option Date
  time : Option String
  time_diff : Option String
  position : Option Int
  status : Option String
  punches : List Split
deriving DecidableEq, Repr

/-- The `Result` deserializer.  `status = wrapped("CompetitorStatus",
attr("value"), default=None)`; `punches: list[Split] =
element("SplitTime", default_factory=list)`, so zero matching children
decodes to the empty list. -/
def Result_decode (x : Xml) : Except DecodeError Result := do
  let st := x.children
  let (result_id, st) ← reqIntElem .ordered "ResultId" st
  let (start_time, st) ←
    match findChild .ordered "StartTime" st with
    | none => pure ((none : Option Date), st)
    | some (c, st') => do
      let d ← Date_decode c
      pure (some d, st')
  let (finish_time, st) ←
    match findChild .ordered "FinishTime" st with
    | none => pure ((none : Option Date), st)
    | some (c, st') => do
      let d ← Date_decode c
      pure (some d, st')
  let (time, st) := optStrElem .ordered "Time" st
  let (time_diff, st) := optStrElem .ordered "TimeDiff" st
  let (position, st) ← optIntElem .ordered "ResultPosition" st
  let (status, st) :=
    match findChild .ordered "CompetitorStatus" st with
    | none => ((none : Option String), st)
    | some (c, st') => (c.attr? "value", st')
  let punches ← (collectChildren .ordered "SplitTime" st).mapM Split_decode
  .ok { result_id := result_id, start_time := start_time,
        finish_time := finish_time, time := time, time_diff := time_diff,
        position := position, status := status, punches := punches }

/-- The `RaceResult` (`search_mode="ordered"`). -/
structure RaceResult where
  event_race_id : Int
  result : Result
deriving DecidableEq, Repr

/-- The `RaceResult` deserializer. -/
def RaceResult_decode (x : Xml) : Except DecodeError RaceResult := do
  let st := x.children
  let (event_race_id, st) ← reqIntElem .ordered "EventRaceId" st
  match findChild .ordered "Result" st with
  | none => .error (.missing "Result")
  | some (c, _) => do
    let r ← Result_decode c
    .ok { event_race_id := event_race_id, result := r }

/-- The polymorphic `Organisation | OtherOrganisation` field value. -/
inductive OrgOrOther where
  | known (o : Organisation)
  | other (o : OtherOrganisation)
deriving DecidableEq, Repr

/-- Union deserializer: the variants are tried in declared order and the
first that validates wins (pydantic-xml model unions). -/
def OrgOrOther_decode (x : Xml) : Except DecodeError OrgOrOther :=
  match Organisation_decode x with
  | .ok o => .ok (.known o)
  | .error _ =>
    match OtherOrganisation_decode x with
    | .ok o => .ok (.other o)
    | .error e => .error e

/-- The `PersonResult` (`search_mode="ordered"`). -/
structure PersonResult where
  person : Person
  organisation : OrgOrOther
  result : Option Result
  race_result : Option RaceResult
deriving DecidableEq, Repr

/-- The `PersonResult` deserializer.  `organisation: Organisation |
OtherOrganisation = element("Organisation",
default_factory=OtherOrganisation)`: an absent `Organisation` element
yields `OtherOrganisation()` — whose `name` defaults to "Klubblös". -/
def PersonResult_decode (x : Xml) : Except DecodeError PersonResult := do
  let st := x.children
  let (person, st) ←
    match findChild .ordered "Person" st with
    | none => .error (.missing "Person")
    | some (c, st') => do
      let p ← Person_decode c
      pure (p, st')
  let (organisation, st) ←
    match findChild .ordered "Organisation" st with
    | none => pure (OrgOrOther.other { name := "Klubblös" }, st)
    | some (c, st') => do
      let o ← OrgOrOther_decode c
      pure (o, st')
  let (result, st) ←
    match findChild .ordered "Result" st with
    | none => pure ((none : Option Result), st)
    | some (c, st') => do
      let r ← Result_decode c
      pure (some r, st')
  let (race_result, _) ←
    match findChild .ordered "RaceResult" st with
    | none => pure ((none : Option RaceResult), st)
    | some (c, st') => do
      let r ← RaceResult_decode c
      pure (some r, st')
  .ok { person := person, organisation := organisation,
        result := result, race_result := race_result }

/-- The `ClassResult` (`search_mode="ordered"`). -/
structure ClassResult where
  number_of_entries : Int
  number_of_starts : Option Int
  class_id : Int
  class_sex : String
  class_name : String
  class_short_name : String
  class_type_id : Int
  class_result : List PersonResult
deriving DecidableEq, Repr

/-- The `ClassResult` deserializer.  The five `EventClass`-wrapped fields
share the wrapper element; `class_result: list[PersonResult] =
element("PersonResult", default_factory=list)`, so zero matching
children decodes to the empty list. -/
def ClassResult_decode (x : Xml) : Except DecodeError ClassResult := do
  let number_of_entries ← reqIntAttr x "numberOfEntries"
  let number_of_starts ← optIntAttr x "numberOfStarts"
  let st := x.children
  let (class_id, class_sex, class_name, class_short_name, class_type_id, st) ←
    match findChild .ordered "EventClass" st with
    | none => .error (.missing "EventClass")
    | some (ec, st') => do
      let est := ec.children
      let (cid, est) ← reqIntElem .ordered "EventClassId" est
      let sex ← reqStrAttr ec "sex"
      let (cname, est) ← reqStrElem .ordered "Name" est
      let (cshort, est) ← reqStrElem .ordered "ClassShortName" est
      let (ctype, _) ← reqIntElem .ordered "ClassTypeId" est
      pure (cid, sex, cname, cshort, ctype, st')
  let class_result ←
    (collectChildren .ordered "PersonResult" st).mapM PersonResult_decode
  .ok { number_of_entries := number_of_entries,
        number_of_starts := number_of_starts,
        class_id := class_id, class_sex := class_sex,
        class_name := class_name, class_short_name := class_short_name,
        class_type_id := class_type_id, class_result := class_result }

/-! ## Distance text parser (`EventorAPI.parse_distance`)

The source grammar, in parsy (a PEG-style combinator library: once a
sub-parser succeeds and consumes input, sequencing never backtracks
into it; only `|` retries from the same position):

  number = (((digit.many() << whitespace).optional())
            + (digit.at_least(1) << string(" m,")))
           .combine(lambda *txt: "".join(txt))
           .map(int)
  return number.parse_partial(text)[0]

`digit` is a single digit character, `whitespace` is `regex(r"\s+")`
(one or more whitespace characters, greedy), `optional()` is
`times(0, 1)` — it commits if its inner parser succeeds, and yields
`None` (not an empty list) if it fails.  `parse_partial` anchors the
parser at position 0 and returns the value plus the unconsumed rest.
-/

/-- Python `\s` characters (the ones representable here). -/
def isPyWs (c : Char) : Bool :=
  c == ' ' || c == '\t' || c == '\n' || c == '\r' || c == '\x0b' || c == '\x0c'

/-- Greedy one-or-more span (`regex(r"\s+")` / `digit.at_least(1)`):
fails when the first character does not satisfy the test. -/
def span1 (p : Char → Bool) (cs : List Char) : Option (List Char × List Char) :=
  match cs.span p with
  | ([], _) => none
  | (a, b) => some (a, b)

/-- The `parsy.string(pat)`: consume the literal `pat` or fail. -/
def stripLeading : List Char → List Char → Option (List Char)
  | [], rest => some rest
  | _ :: _, [] => none
  | p :: ps, c :: cs => if p == c then stripLeading ps cs else none

/-- Outcome of `EventorAPI.parse_distance`: the returned integer plus
the input parse_partial left unconsumed, a `parsy.ParseError`, or the
`TypeError` the Python `None + list` in the combine step would raise. -/
inductive PdResult where
  | ok (value : Nat) (rest : List Char)
  | parseError
  | typeError
deriving DecidableEq, Repr

/-- The `EventorAPI.parse_distance` on a character list, following parsy's
commit semantics step by step:
1. the optional group `digit.many() << whitespace` runs first: a greedy
   digit span followed by a mandatory greedy whitespace span; if the
   whitespace is absent the optional yields `None` at position 0;
2. if the optional group succeeded it is committed — sequencing does
   not backtrack into it;
3. then `digit.at_least(1) << string(" m,")` must match at the current
   position. -/
def parse_distance_chars (s : List Char) : PdResult :=
  let (g1, r1) := s.span Char.isDigit
  match span1 isPyWs r1 with
  | some (_, r2) =>
    match span1 Char.isDigit r2 with
    | some (g2, r3) =>
      match stripLeading [' ', 'm', ','] r3 with
      | some r4 => .ok (digitsVal (g1 ++ g2)) r4
      | none => .parseError
    | none => .parseError
  | none =>
    match span1 Char.isDigit s with
    | some (_, r3) =>
      match stripLeading [' ', 'm', ','] r3 with
      | some _ => .typeError
      | none => .parseError
    | none => .parseError

/-- The `EventorAPI.parse_distance` on a string. -/
def parse_distance (s : String) : PdResult :=
  parse_distance_chars s.data

/-! ## HTML scraper (`EventorAPI.get_course_distances`)

The fetched page is abstracted as the list of per-class header blocks
the BeautifulSoup pass extracts: for each `eventClassHeader` div, the
heading text (`inner_div.h3.text.strip()`) and the remaining block text
after `inner_div.h3.decompose()`.
-/

/-- One per-class header block of a results page. -/
structure ClassBlock where
  name : String
  text : String
deriving DecidableEq, Repr

/-- An uncaught exception escaping the scraper's per-class loop. -/
inductive ScrapeError where
  | parseError
  | typeError
deriving DecidableEq, Repr

/-- The per-class loop of `EventorAPI.get_course_distances` (api.py
lines 273-278): `distances[name] = self.parse_distance(inner_div.text)`
inside a plain `for` with no exception handling, so the first block
whose text does not parse raises out of the method and no mapping is
returned at all. -/
def get_course_distances_core : List ClassBlock → Except ScrapeError (List (String × Nat))
  | [] => .ok []
  | d :: ds =>
    match parse_distance d.text with
    | .ok v _ =>
      match get_course_distances_core ds with
      | .ok m => .ok ((d.name, v) :: m)
      | .error e => .error e
    | .parseError => .error .parseError
    | .typeError => .error .typeError

/-! ## Endpoint client (`src/eventor/api.py`) -/

/-- A query-parameter value as placed in the Python params dict. -/
inductive PVal where
  | str (s : String)
  | int (n : Int)
  | intList (l : List Int)
  | bool (b : Bool)
deriving DecidableEq, Repr

/-- The `Endpoint(StrEnum)`. -/
inductive Endpoint where
  | EVENT
  | EVENTS
  | RESULTS
  | ORGANISATIONS
  | PERSONS
  | PERSON_RESULTS
  | TOKEN_ORGANIZATION
deriving DecidableEq, Repr

/-- The endpoint's string value. -/
def Endpoint.str : Endpoint → String
  | .EVENT => "event"
  | .EVENTS => "events"
  | .RESULTS => "results/event"
  | .ORGANISATIONS => "organisations"
  | .PERSONS => "persons/organisations/"
  | .PERSON_RESULTS => "results/person"
  | .TOKEN_ORGANIZATION => "organisation/apiKey"

def base_url : String := "https://eventor.orientering.se/api"

/-- The GET request `_make_call` hands to `requests.get`. -/
structure Request where
  url : String
  params : List (String × PVal)
  headers : List (String × String)
deriving DecidableEq, Repr

/-- The `EventorAPI._make_call` URL construction (api.py lines 66-68). -/
def make_call_url (endpoint : Endpoint) (extra_path : Option String) : String :=
  match extra_path with
  | none => base_url ++ "/" ++ endpoint.str
  | some p => base_url ++ "/" ++ endpoint.str ++ "/" ++ p

/-- A completed HTTP exchange: status code and body (body bytes
abstracted as parsed-XML-or-malformed). -/
structure HttpResponse where
  status_code : Nat
  content : Option Xml

/-- What `requests.get` does for one request: return a `Response`
(whatever its status code), or raise a connection error / timeout. -/
inductive NetResult where
  | resp (r : HttpResponse)
  | connError
  | timeout

/-- The transport oracle. -/
def Net := Request → NetResult

/-- The `EventorAPI._make_call` (api.py lines 47-71): builds the URL,
issues the GET and returns the response unchanged — it never inspects
`status_code` and never calls `raise_for_status`; a transport-level
exception propagates.  Also returns the request it issued. -/
def make_call (net : Net) (endpoint : Endpoint) (params : List (String × PVal))
    (headers : List (String × String)) (extra_path : Option String) :
    NetResult × Request :=
  let req : Request := { url := make_call_url endpoint extra_path,
                         params := params, headers := headers }
  (net req, req)

/-- A network-level failure raised by `requests.get`. -/
inductive TransportError where
  | connection
  | timeout
deriving DecidableEq, Repr

/-- An error escaping a client operation: a transport exception from
`requests`, or a pydantic validation error from `from_xml`. -/
inductive ApiError where
  | transport (e : TransportError)
  | decode (e : DecodeError)
deriving DecidableEq, Repr

/-- Does the operation's outcome surface as a transport error? -/
def isTransportError {α : Type} : Except ApiError α → Bool
  | .error (.transport _) => true
  | _ => false

/-- The `Event.from_xml(bytes)`: parse the bytes, then deserialize. -/
def Event_from_xml : Option Xml → Except DecodeError Event
  | none => .error .malformed
  | some x => Event_decode x

/-- The `Organisation.from_xml(bytes)`. -/
def Organisation_from_xml : Option Xml → Except DecodeError Organisation
  | none => .error .malformed
  | some x => Organisation_decode x

/-- The `PersonList.from_xml(bytes)`. -/
def PersonList_from_xml : Option Xml → Except DecodeError PersonList
  | none => .error .malformed
  | some x => PersonList_decode x

/-- The `EventorAPI.get_event` (api.py lines 73-89): one call, then
`Event.from_xml(response.content)` with no status check in between.
Returns the outcome and the trace of issued requests. -/
def get_event (net : Net) (api_token : String) (event_id : Int) :
    Except ApiError Event × List Request :=
  let headers := [("ApiKey", api_token)]
  let (res, req) := make_call net .EVENT [] headers (some (toString event_id))
  match res with
  | .connError => (.error (.transport .connection), [req])
  | .timeout => (.error (.transport .timeout), [req])
  | .resp r =>
    match Event_from_xml r.content with
    | .ok ev => (.ok ev, [req])
    | .error e => (.error (.decode e), [req])

/-- The `EventorAPI.get_own_organization` (api.py lines 209-220). -/
def get_own_organization (net : Net) (api_token : String) :
    Except ApiError Organisation × List Request :=
  let headers := [("ApiKey", api_token)]
  let (res, req) := make_call net .TOKEN_ORGANIZATION [] headers none
  match res with
  | .connError => (.error (.transport .connection), [req])
  | .timeout => (.error (.transport .timeout), [req])
  | .resp r =>
    match Organisation_from_xml r.content with
    | .ok o => (.ok o, [req])
    | .error e => (.error (.decode e), [req])

/-- The `EventorAPI.get_all_persons_in_own_organization` (api.py lines
222-241), run to completion: `org = self.get_own_organization()` comes
first and any exception it raises propagates before the second
`_make_call` is reached; the second call's extra path is
`str(org.organisation_id)`. -/
def get_all_persons_in_own_organization (net : Net) (api_token : String) :
    Except ApiError (List Person) × List Request :=
  match get_own_organization net api_token with
  | (.error e, trace) => (.error e, trace)
  | (.ok org, trace) =>
    let headers := [("ApiKey", api_token)]
    let (res, req) :=
      make_call net .PERSONS [] headers (some (toString org.organisation_id))
    match res with
    | .connError => (.error (.transport .connection), trace ++ [req])
    | .timeout => (.error (.transport .timeout), trace ++ [req])
    | .resp r =>
      match PersonList_from_xml r.content with
      | .ok pl => (.ok pl.persons, trace ++ [req])
      | .error e => (.error (.decode e), trace ++ [req])

/-- Python truthiness of an optional-list argument (`if eventIds:`):
false for `None` and for the empty list. -/
def truthyList {α : Type} : Option (List α) → Bool
  | none => false
  | some l => !l.isEmpty

/-- The `",".join(str(i) for i in ids)`. -/
def commaJoinInts (l : List Int) : String :=
  String.intercalate "," (l.map toString)

/-- The `EventorAPI.get_events` query-parameter construction (api.py lines
129-140): the params dict in insertion order.  Each optional filter is
added only when truthy; `organisationIds` and `classificationIds` are
comma-joined strings (the latter over `int(cl)`), `eventIds` is passed
as the raw list. -/
def get_events_params (start_date end_date : String)
    (eventIds : Option (List Int))
    (organisationIds : Option (List Int))
    (classificationIds : Option (List ClassificationID)) :
    List (String × PVal) :=
  [("fromDate", PVal.str start_date), ("toDate", PVal.str end_date)]
  ++ (if truthyList eventIds then
        [("eventIds", PVal.intList (eventIds.getD []))] else [])
  ++ (if truthyList organisationIds then
        [("organisationIds", PVal.str (commaJoinInts (organisationIds.getD [])))]
      else [])
  ++ (if truthyList classificationIds then
        [("classificationIds", PVal.str (String.intercalate ","
          (((classificationIds.getD []).map (fun cl => toString cl.toInt)))))]
      else [])

/-- The `EventorAPI.get_all_results_for_person` query parameters (api.py
lines 191-197); `top: int = 0` is sent only when truthy (non-zero). -/
def get_all_results_for_person_params (person_id : Int)
    (start_date end_date : String) (top : Int) : List (String × PVal) :=
  [("fromDate", PVal.str start_date), ("toDate", PVal.str end_date),
   ("personId", PVal.int person_id)]
  ++ (if top == 0 then [] else [("top", PVal.int top)])

/-! ## Concrete documents used by the theorems -/

/-- Element with children and no text or attributes. -/
def el (tag : String) (children : List Xml) : Xml :=
  .elem tag [] none children

/-- Leaf element with text content. -/
def txt (tag : String) (t : String) : Xml :=
  .elem tag [] (some t) []

/-- An `Event` document with every scalar field present but zero
`EventRace` children. -/
def eventDocNoRaces : Xml :=
  el "Event"
    [txt "EventId" "148", txt "Name" "Vårtävling",
     txt "EventClassificationId" "3", txt "EventStatusId" "9",
     el "StartDate" [txt "Date" "2024-05-01"],
     el "FinishDate" [txt "Date" "2024-05-01"]]

/-- The same `Event` document with one `EventRace` child appended. -/
def eventDocOneRace : Xml :=
  el "Event"
    [txt "EventId" "148", txt "Name" "Vårtävling",
     txt "EventClassificationId" "3", txt "EventStatusId" "9",
     el "StartDate" [txt "Date" "2024-05-01"],
     el "FinishDate" [txt "Date" "2024-05-01"],
     el "EventRace"
       [txt "EventRaceId" "201", txt "EventId" "148",
        el "RaceDate" [txt "Date" "2024-05-01"]]]

/-- An `OrganisationList` document with zero `Organisation` children. -/
def orgListDocEmpty : Xml :=
  el "OrganisationList" []

/-- A `ClassResult` fragment with zero `PersonResult` children. -/
def classResultDocEmpty : Xml :=
  .elem "ClassResult" [("numberOfEntries", "10")] none
    [.elem "EventClass" [("sex", "B")] none
      [txt "EventClassId" "7", txt "Name" "H21",
       txt "ClassShortName" "H21", txt "ClassTypeId" "17"]]

/-- An `Organisation` fragment containing two same-tagged `Name`
siblings, "Alpha" before "Beta". -/
def orgDocNameAB : Xml :=
  el "Organisation"
    [txt "OrganisationId" "1", txt "Name" "Alpha", txt "Name" "Beta",
     txt "ShortName" "S", txt "OrganisationTypeId" "5"]

/-- The `orgDocNameAB` with the two `Name` siblings swapped. -/
def orgDocNameBA : Xml :=
  el "Organisation"
    [txt "OrganisationId" "1", txt "Name" "Beta", txt "Name" "Alpha",
     txt "ShortName" "S", txt "OrganisationTypeId" "5"]

/-- A `Split` fragment containing two same-tagged `Time` siblings,
"600" before "700". -/
def splitDocTime12 : Xml :=
  .elem "SplitTime" [("sequence", "1")] none
    [txt "ControlCode" "31", txt "Time" "600", txt "Time" "700"]

/-- The `splitDocTime12` with the two `Time` siblings swapped. -/
def splitDocTime21 : Xml :=
  .elem "SplitTime" [("sequence", "1")] none
    [txt "ControlCode" "31", txt "Time" "700", txt "Time" "600"]

/-- A `Person` fragment. -/
def personDoc : Xml :=
  el "Person" [el "PersonName" [txt "Family" "Svensson", txt "Given" "Anna"]]

/-- A `PersonResult` fragment whose `Organisation` element is entirely
absent. -/
def personResultDocNoOrg : Xml :=
  el "PersonResult" [personDoc]

/-- A `PersonResult` fragment whose `Organisation` element is present
but carries only a `Name` child — not the children the full
`Organisation` model requires. -/
def personResultDocPartialOrg : Xml :=
  el "PersonResult" [personDoc, el "Organisation" [txt "Name" "OK Linné"]]

/-- A transport oracle that always completes the HTTP exchange with
status 500 and a body that is not well-formed XML. -/
def net500 : Net := fun _ => .resp { status_code := 500, content := none }

/-- A transport oracle that always completes the HTTP exchange with
status 404 and a body that is a valid `Event` document. -/
def net404Event : Net :=
  fun _ => .resp { status_code := 404, content := some eventDocOneRace }

/-- A transport oracle that always raises a connection error. -/
def netConnFail : Net := fun _ => .connError

/-- Decidable equality of operation outcomes. -/
instance {ε α : Type} [DecidableEq ε] [DecidableEq α] :
    DecidableEq (Except ε α) := fun x y =>
  match x, y with
  | .ok a, .ok b =>
    if h : a = b then .isTrue (by rw [h])
    else .isFalse (fun hc => by cases hc; exact h rfl)
  | .error a, .error b =>
    if h : a = b then .isTrue (by rw [h])
    else .isFalse (fun hc => by cases hc; exact h rfl)
  | .ok _, .error _ => .isFalse (fun hc => by cases hc)
  | .error _, .ok _ => .isFalse (fun hc => by cases hc)

/-- The request `get_event` issues. -/
def event_request (api_token : String) (event_id : Int) : Request :=
  { url := make_call_url .EVENT (some (toString event_id)),
    params := [], headers := [("ApiKey", api_token)] }

/-- The request `get_own_organization` issues. -/
def token_org_request (api_token : String) : Request :=
  { url := make_call_url .TOKEN_ORGANIZATION none,
    params := [], headers := [("ApiKey", api_token)] }

/-- Unfolding equation for `get_event`. -/
theorem get_event_eq (net : Net) (tok : String) (eid : Int) :
    get_event net tok eid =
      (match net (event_request tok eid) with
       | .connError => (.error (.transport .connection), [event_request tok eid])
       | .timeout => (.error (.transport .timeout), [event_request tok eid])
       | .resp r =>
         match Event_from_xml r.content with
         | .ok ev => (.ok ev, [event_request tok eid])
         | .error e => (.error (.decode e), [event_request tok eid])) := rfl

/-- Unfolding equation for `get_own_organization`. -/
theorem get_own_organization_eq (net : Net) (tok : String) :
    get_own_organization net tok =
      (match net (token_org_request tok) with
       | .connError => (.error (.transport .connection), [token_org_request tok])
       | .timeout => (.error (.transport .timeout), [token_org_request tok])
       | .resp r =>
         match Organisation_from_xml r.content with
         | .ok o => (.ok o, [token_org_request tok])
         | .error e => (.error (.decode e), [token_org_request tok])) := rfl

/-- Whatever the transport does, `get_own_organization` issues exactly
its one request. -/
theorem get_own_organization_trace (net : Net) (tok : String) :
    (get_own_organization net tok).2 = [token_org_request tok] := by
  rw [get_own_organization_eq]
  cases net (token_org_request tok) with
  | resp r =>
    dsimp only
    cases Organisation_from_xml r.content <;> rfl
  | connError => rfl
  | timeout => rfl

/-- Unfolding equation for `get_all_persons_in_own_organization`. -/
theorem get_all_persons_eq (net : Net) (tok : String) :
    get_all_persons_in_own_organization net tok =
      (match get_own_organization net tok with
       | (.error e, trace) => (.error e, trace)
       | (.ok org, trace) =>
         match make_call net .PERSONS [] [("ApiKey", tok)]
             (some (toString org.organisation_id)) with
         | (res, req) =>
           match res with
           | .connError => (.error (.transport .connection), trace ++ [req])
           | .timeout => (.error (.transport .timeout), trace ++ [req])
           | .resp r =>
             match PersonList_from_xml r.content with
             | .ok pl => (.ok pl.persons, trace ++ [req])
             | .error e => (.error (.decode e), trace ++ [req])) := rfl

/-! ## Theorems settling the claims -/

/-- Claim C1, counterexample: a completed HTTP exchange with a non-2xx
status is not reported as a transport error.  With a status-500 response
whose body is not XML, `get_event` surfaces a decoding error; with a
status-404 response whose body happens to be a valid `Event` document,
`get_event` even succeeds.  In neither case does the non-2xx status
surface as a transport error. -/
theorem get_event_non2xx_not_transport :
    (get_event net500 "tok" 1).1 = .error (.decode .malformed) ∧
    isTransportError (get_event net500 "tok" 1).1 = false ∧
    (get_event net404Event "tok" 1).1 = .ok
      { event_id := 148, name := "Vårtävling", event_classification_id := 3,
        event_status_id := 9, event_attribute_id := none, discipline_id := none,
        start_date := "2024-05-01",
        finish_date := { date := "2024-05-01", clock := none },
        organizer_ids := none,
        event_races := [{ race_distance := none, race_id := 201, event_id := 148,
                          name := none,
                          race_date := { date := "2024-05-01", clock := none },
                          event_position := none }] } ∧
    isTransportError (get_event net404Event "tok" 1).1 = false := by
  refine ⟨by rfl, by rfl, by rfl, by rfl⟩

/-- Claim C1, amended: a network-level failure (connection failure or
timeout) is reported as a transport error, distinct from the decoding
errors raised by the Decoder; but a non-2xx HTTP response is not — the
client never inspects the status code, so whenever the transport
returns any completed response the operation's outcome is never a
transport error (it is a decoding error or a success). -/
theorem get_event_failure_surfaces (net : Net) (tok : String) (eid : Int) :
    (net (event_request tok eid) = .connError →
      (get_event net tok eid).1 = .error (.transport .connection)) ∧
    (net (event_request tok eid) = .timeout →
      (get_event net tok eid).1 = .error (.transport .timeout)) ∧
    (∀ r, net (event_request tok eid) = .resp r →
      isTransportError (get_event net tok eid).1 = false) := by
  refine ⟨fun h => ?_, fun h => ?_, fun r h => ?_⟩ <;>
    rw [get_event_eq, h]
  cases hE : Event_from_xml r.content <;> simp [hE, isTransportError]

/-- Witness for `get_event_failure_surfaces` at a concrete failing
transport. -/
theorem get_event_failure_surfaces_witness :
    (get_event netConnFail "tok" 1).1 = .error (.transport .connection) :=
  (get_event_failure_surfaces netConnFail "tok" 1).1 rfl

/-- Claim C2, counterexample: a page with one class block whose text the
parser cannot match ("H21") aborts the whole extraction, although the
other class block ("D21") has matching text — the operation raises the
parse error and produces no distances at all, in particular not the
distance of the matching class. -/
theorem course_distances_unparsable_aborts :
    parse_distance "3 200 m, 1:30" = .ok 3200 " 1:30".data ∧
    get_course_distances_core [⟨"H21", "no distance"⟩, ⟨"D21", "3 200 m, 1:30"⟩]
      = .error .parseError := by
  refine ⟨by rfl, by rfl⟩

/-- Claim C2, amended: during the per-class iteration of
`get_course_distances`, a class block whose text the parser cannot
match raises the parse error out of the operation, aborting the whole
page's extraction — no distances are returned for any class. -/
theorem course_distances_abort_on_failure (divs : List ClassBlock) (d : ClassBlock)
    (hd : d ∈ divs) (hfail : parse_distance d.text = .parseError) :
    ∃ e, get_course_distances_core divs = .error e := by
  induction divs with
  | nil => cases hd
  | cons a as ih =>
    rcases List.mem_cons.mp hd with rfl | hmem
    · exact ⟨.parseError, by rw [get_course_distances_core, hfail]⟩
    · rcases ih hmem with ⟨e, he⟩
      cases hpa : parse_distance a.text with
      | ok v rest =>
        exact ⟨e, by rw [get_course_distances_core, hpa, he]⟩
      | parseError => exact ⟨.parseError, by rw [get_course_distances_core, hpa]⟩
      | typeError => exact ⟨.typeError, by rw [get_course_distances_core, hpa]⟩

/-- Witness for `course_distances_abort_on_failure` at a concrete
page. -/
theorem course_distances_abort_witness :
    ∃ e, get_course_distances_core
      [⟨"H21", "no distance"⟩, ⟨"D21", "3 200 m, 1:30"⟩] = .error e :=
  course_distances_abort_on_failure _ ⟨"H21", "no distance"⟩
    (List.mem_cons_self _ _) rfl

/-- Claim C3: on the literal input "450 m," the parser raises
`parsy.ParseError` instead of returning 450 — the committed optional
leading group `digit.many() << whitespace` consumes "450 " and the
mandatory digit group then starts at the letter m, so the parse fails
(parsy sequencing does not backtrack into the succeeded optional). -/
theorem parse_distance_450_parse_error :
    parse_distance "450 m," = .parseError := by rfl

/-- Claim C4: `get_events` sends exactly `fromDate`/`toDate` plus one
key per truthy (supplied, non-empty) optional filter; with none of the
three optional filters the parameters are exactly `fromDate` and
`toDate`, and no optional key appears with an empty value; likewise
`get_all_results_for_person` with the default `top=0` sends exactly
`fromDate`, `toDate` and `personId`. -/
theorem get_events_params_exact :
    (∀ sd ed : String, get_events_params sd ed none none none =
      [("fromDate", PVal.str sd), ("toDate", PVal.str ed)]) ∧
    (∀ (sd ed : String) (eIds oIds : Option (List Int))
        (cIds : Option (List ClassificationID)),
      (get_events_params sd ed eIds oIds cIds).map Prod.fst =
        ["fromDate", "toDate"]
        ++ (if truthyList eIds then ["eventIds"] else [])
        ++ (if truthyList oIds then ["organisationIds"] else [])
        ++ (if truthyList cIds then ["classificationIds"] else [])) ∧
    (∀ (pid : Int) (sd ed : String),
      (get_all_results_for_person_params pid sd ed 0).map Prod.fst =
        ["fromDate", "toDate", "personId"]) := by
  refine ⟨fun sd ed => rfl, fun sd ed eIds oIds cIds => ?_, fun pid sd ed => rfl⟩
  cases heI : truthyList eIds <;> cases hoI : truthyList oIds <;>
    cases hcI : truthyList cIds <;>
    simp [get_events_params, heI, hoI, hcI]

/-- Claim C5: if the first call of the two-step
persons-in-own-organisation lookup fails (transport error or decoding
error), the operation's whole request trace is exactly the one
own-organisation request — the second network call is never
attempted. -/
theorem own_org_failure_blocks_second_call (net : Net) (tok : String) (e : ApiError)
    (h : (get_own_organization net tok).1 = .error e) :
    (get_all_persons_in_own_organization net tok).2 = [token_org_request tok] := by
  rw [get_all_persons_eq]
  rcases hgo : get_own_organization net tok with ⟨res, trace⟩
  have htrace : trace = [token_org_request tok] := by
    have hx := get_own_organization_trace net tok
    rw [hgo] at hx
    exact hx
  rw [hgo] at h
  dsimp at h
  cases res with
  | error e2 => exact htrace
  | ok o => exact absurd h (by simp)

/-- Witness for `own_org_failure_blocks_second_call` at a concrete
failing transport. -/
theorem own_org_failure_blocks_second_call_witness :
    (get_all_persons_in_own_organization netConnFail "tok").2 =
      [token_org_request "tok"] :=
  own_org_failure_blocks_second_call netConnFail "tok" (.transport .connection) rfl

/-- Claim C6, counterexample: zero matching children is a decoding
error — not an empty sequence — for `Event.event_races` and
`OrganisationList.organisations`, whose collection fields declare no
default. -/
theorem event_empty_collections_fail :
    Event_decode eventDocNoRaces = .error (.missing "EventRace") ∧
    OrganisationList_decode orgListDocEmpty = .error (.missing "Organisation") := by
  refine ⟨by rfl, by rfl⟩

/-- Claim C6, amended: a repeated-child collection field decodes zero
matching children to an empty sequence only when it declares an empty
default (`default_factory=list`), as `ClassResult.class_result` does;
for `Event.event_races` and `OrganisationList.organisations`, which
have no default, zero matching children is a decoding error. -/
theorem empty_collection_defaults :
    ClassResult_decode classResultDocEmpty =
      .ok { number_of_entries := 10, number_of_starts := none, class_id := 7,
            class_sex := "B", class_name := "H21", class_short_name := "H21",
            class_type_id := 17, class_result := [] } ∧
    Event_decode eventDocNoRaces = .error (.missing "EventRace") ∧
    OrganisationList_decode orgListDocEmpty = .error (.missing "Organisation") := by
  refine ⟨by rfl, by rfl, by rfl⟩

/-- Claim C7, counterexample: `Split` — the entity the claim treats as
unordered — is order-sensitive: swapping its two same-tagged `Time`
siblings changes the decoded value (both decodes succeed but bind
different values to the `time` field). -/
theorem split_same_tag_swap_changes_decode :
    Split_decode splitDocTime12 =
      .ok { sequence := 1, control_code := 31, time := some "600" } ∧
    Split_decode splitDocTime21 =
      .ok { sequence := 1, control_code := 31, time := some "700" } ∧
    Split_decode splitDocTime12 ≠ Split_decode splitDocTime21 := by
  refine ⟨by rfl, by rfl, ?_⟩
  rw [show Split_decode splitDocTime12 =
        .ok { sequence := 1, control_code := 31, time := some "600" } from by rfl,
      show Split_decode splitDocTime21 =
        .ok { sequence := 1, control_code := 31, time := some "700" } from by rfl]
  decide

/-- Claim C7, amended: for the ordered entity `Organisation` swapping
two same-tagged `Name` siblings changes which value binds to the `name`
field; no entity of the repository is declared with unordered matching
— the non-ordered entities use the library's default strict mode, which
is likewise order-sensitive, as the `Split` swap shows. -/
theorem ordered_and_strict_order_sensitivity :
    (Organisation_decode orgDocNameAB).map Organisation.name = .ok "Alpha" ∧
    (Organisation_decode orgDocNameBA).map Organisation.name = .ok "Beta" ∧
    Organisation_decode orgDocNameAB ≠ Organisation_decode orgDocNameBA ∧
    Split_decode splitDocTime12 ≠ Split_decode splitDocTime21 := by
  refine ⟨by rfl, by rfl, ?_, ?_⟩
  · intro hc
    have h1 : (Organisation_decode orgDocNameAB).map Organisation.name =
        (Organisation_decode orgDocNameBA).map Organisation.name := by rw [hc]
    rw [show (Organisation_decode orgDocNameAB).map Organisation.name =
          .ok "Alpha" from by rfl,
        show (Organisation_decode orgDocNameBA).map Organisation.name =
          .ok "Beta" from by rfl] at h1
    exact absurd h1 (by decide)
  · rw [show Split_decode splitDocTime12 =
          .ok { sequence := 1, control_code := 31, time := some "600" } from by rfl,
        show Split_decode splitDocTime21 =
          .ok { sequence := 1, control_code := 31, time := some "700" } from by rfl]
    decide

/-- Claim C8: decoding a `PersonResult` fragment whose `Organisation`
child element is entirely absent succeeds and yields the placeholder
clubless organisation with the fixed name "Klubblös". -/
theorem personresult_absent_org_clubless :
    PersonResult_decode personResultDocNoOrg =
      .ok { person := { sex := none, family_name := "Svensson",
                        first_name := "Anna", id := none, birth_date := none,
                        nationality := none },
            organisation := .other { name := "Klubblös" },
            result := none, race_result := none } := by rfl

/-- Claim C9: the parser returns exactly 3200 on "3 200 m, 1:30"
(digit groups concatenated, trailing content left unconsumed) and
reports no match on "no distance here". -/
theorem parse_distance_literal_results :
    parse_distance "3 200 m, 1:30" = .ok 3200 " 1:30".data ∧
    parse_distance "no distance here" = .parseError := by
  refine ⟨by rfl, by rfl⟩

/-- Claim C10: a present `Organisation` element that lacks the children
the full `Organisation` model requires (here: only a `Name` child)
decodes without failure to the unknown-organisation fallback, carrying
the `Name` text actually found instead of the "Klubblös" placeholder. -/
theorem personresult_partial_org_keeps_found_name :
    PersonResult_decode personResultDocPartialOrg =
      .ok { person := { sex := none, family_name := "Svensson",
                        first_name := "Anna", id := none, birth_date := none,
                        nationality := none },
            organisation := .other { name := "OK Linné" },
            result := none, race_result := none } ∧
    ("OK Linné" : String) ≠ "Klubblös" := by
  refine ⟨by rfl, by decide⟩

end Eventor
